import Mathlib

/-!
Shallow embedding of the kind-cluster bootstrap of
`scripts/setup_kind.py` (registry provisioning, network binding,
per-node containerd mirror configuration, baseline resources, image
preload), faithful to the Python source.  External observations
(docker/kind/kubectl output) are supplied by an environment record
`Sys`; observations that the source polls in a loop are indexed by the
attempt number, so the environment may change between attempts.
Mutating commands are recorded in an effect trace; `sys.exit` and a
raised `CalledProcessError` (a `check=True` command failing) are
modelled as `Except.error`.
-/

namespace SetupKind

/-- Python substring membership on character lists: `charsStartWith n h`
is true when `n` is an initial segment of `h`. -/
def charsStartWith : List Char → List Char → Bool
  | [], _ => true
  | _ :: _, [] => false
  | n :: ns, h :: hs => (n = h) && charsStartWith ns hs

/-- Here `charsContain n h` is true when `n` occurs contiguously inside `h`. -/
def charsContain (ns : List Char) : List Char → Bool
  | [] => ns.isEmpty
  | h :: t => charsStartWith ns (h :: t) || charsContain ns t

/-- Python's `needle in hay` on strings (substring test). -/
def strContains (hay needle : String) : Bool :=
  charsContain needle.toList hay.toList

/-- Drop leading whitespace characters. -/
def dropLeadingWs : List Char → List Char
  | [] => []
  | c :: cs => if c.isWhitespace then dropLeadingWs cs else c :: cs

/-- Python's `str.strip()`: remove leading and trailing whitespace. -/
def pyStrip (s : String) : String :=
  (dropLeadingWs (dropLeadingWs s.toList.reverse).reverse).asString

/-- Python's `str.lower()`. -/
def pyLower (s : String) : String :=
  (s.toList.map Char.toLower).asString

/-- Split into newline-separated lines (how `docker ps --format` and
`kind get clusters` list one name per line). -/
def splitLinesAux : List Char → List Char → List (List Char)
  | [], acc => [acc.reverse]
  | c :: cs, acc =>
    if c = '\n' then acc.reverse :: splitLinesAux cs [] else splitLinesAux cs (c :: acc)

/-- The lines of a command's stdout. -/
def linesOf (s : String) : List String :=
  (splitLinesAux s.toList []).map List.asString

-- Module-level configuration constants of `setup_kind.py`.

def CLUSTER_NAME : String := "secret-manager-controller"

def REGISTRY_NAME : String := "octopilot-registry"

def REGISTRY_PORT : String := "5001"

def REGISTRY_IMAGE : String := "ghcr.io/octopilot/registry-tls:latest"

def REGISTRY_CONTAINER_PORT : String := "5000"

/-- Mutating external commands issued by the script, in order. -/
inductive Eff where
  | volumeCreate (name : String)
  | dockerRun (name image port : String)
  | dockerStart (name : String)
  | netConnect (network container : String)
  | execMkdir (node dir : String)
  | execWrite (node path content : String)
  | restartContainerd (node : String)
  | kubectlApply (what : String)
  | dockerPull (image : String)
  | kindLoad (image : String)
  | kindCreate
  | kindDelete
deriving Repr, DecidableEq

/-- Does this effect restart a node's container runtime? -/
def Eff.isRestart : Eff → Bool
  | .restartContainerd _ => true
  | _ => false

/-- Does this effect create a new container (`docker run`)? -/
def Eff.isDockerRun : Eff → Bool
  | .dockerRun _ _ _ => true
  | _ => false

/-- Result of `docker inspect <name>` for the registry container's
network attachments, as read by `get_registry_ip`: `present` is whether
the inspect succeeded, `allIPs` the concatenation of the IPs on all
networks, `kindIP` the IP on the network named `kind`, `bridgeIP` the
legacy `.NetworkSettings.IPAddress` field. -/
structure RegNetView where
  present : Bool
  allIPs : String
  kindIP : String
  bridgeIP : String

/-- Per-node observations used by `configure_containerd_registry`:
`readHosts` is the content of the node's
`/etc/containerd/certs.d/<mirror-host>/hosts.toml` (`none` when the
`cat` exits nonzero), `writeOk` whether the config write succeeds,
`grepCerts` the `grep -c certs.d /etc/containerd/config.toml` count,
`ctrOk i` whether `ctr version` succeeds on liveness-poll attempt `i`. -/
structure NodeView where
  name : String
  readHosts : Option String
  writeOk : Bool
  grepCerts : Option Nat
  ctrOk : Nat → Bool

/-- Outcome of a `kubectl apply` whose failure may still mean the
resource already exists. -/
inductive ApplyRes where
  | ok
  | alreadyExists
  | failed
deriving Repr, DecidableEq

/-- Environment: every external observation the script can make.
Fields of type `Nat → _` answer the successive attempts of the polling
loop that reads them. -/
structure Sys where
  -- setup_registry
  psAll : String
  psRunning : String
  portLines : List (String × String)
  imageOf : String → Option String
  dockerRunOk : Bool
  -- ensure_registry_connected
  networkLs : Nat → String
  ercPs : String
  startOk : Bool
  ercPsAfterStart : Nat → String
  netInspect0 : String
  connectOk : Bool
  netInspectVerify : Nat → String
  netInspectRecheck : String
  -- configure_containerd_registry
  nodesQuery : Option (List NodeView)
  regNet : Nat → RegNetView
  -- setup_kind_cluster
  clusters0 : String
  nonInteractive : Bool
  promptRecreateYes : Bool
  deleteOk : Bool
  kindConfigExists : Bool
  createOk : Bool
  createSaysExists : Bool
  networkLs2 : Nat → String
  clustersAfterCreate : String
  accFirstNode : Nat → Option String
  accRegNet : Nat → RegNetView
  ping : Nat → String → String → Bool
  -- namespaces and PVCs
  nsExists : Bool
  nsApplyOk : Bool
  pvcFileExists : Bool
  pvcApply : ApplyRes
  pgNsExists : Bool
  pgPvcApply : ApplyRes
  -- image preload
  localImages : String
  pullOk : String → Bool
  loadOk : String → Bool
  -- local-registry-hosting ConfigMap (applied with check=True)
  configmapApplyOk : Bool
  -- CRD installation
  crdFileExists : Bool
  crdApplyOk : Bool
  crdEstablished : Nat → Bool
  -- GitOps component sub-scripts
  fluxScriptExists : Bool
  fluxOk : Bool
  argoScriptExists : Bool
  argoOk : Bool

/-- One bounded poll loop `for i in range(bound): if p(i): break;
sleep(interval)`: returns whether the condition was observed and how
many attempts were made. -/
def pollUntil (bound : Nat) (p : Nat → Bool) : Bool × Nat :=
  match (List.range bound).find? p with
  | some i => (true, i + 1)
  | none => (false, bound)

/-- Model of `find_registry_on_port`: scan the `docker ps` name/ports table for a
container whose port string maps the given port and whose image name
contains `registry` (case-insensitively). -/
def find_registry_on_port (sys : Sys) (port : String) : Option String :=
  go sys.portLines
where
  go : List (String × String) → Option String
  | [] => none
  | (name, ports) :: rest =>
    if strContains ports (":" ++ port ++ "->") || strContains ports ("->" ++ port ++ "/") then
      match sys.imageOf name with
      | some img => if strContains (pyLower img) "registry" then some name else go rest
      | none => go rest
    else go rest

/-- Model of `setup_registry`: reuse the running named registry, else start the
stopped one, else adopt a running registry on the port, else create a
fresh container backed by a named volume.  The name tests are Python
substring membership on the raw `docker ps` stdout, exactly as in the
source.  `docker run` is issued with `check=True`, so its failure
raises (modelled as `Except.error`). -/
def setup_registry (sys : Sys) : Except String (String × List Eff) :=
  if strContains sys.psAll REGISTRY_NAME then
    if strContains sys.psRunning REGISTRY_NAME then
      .ok (REGISTRY_NAME, [])
    else
      .ok (REGISTRY_NAME, [.dockerStart REGISTRY_NAME])
  else
    match find_registry_on_port sys REGISTRY_PORT with
    | some adopted => .ok (adopted, [])
    | none =>
      if sys.dockerRunOk then
        .ok (REGISTRY_NAME,
          [.volumeCreate (REGISTRY_NAME ++ "-data"),
           .dockerRun REGISTRY_NAME REGISTRY_IMAGE REGISTRY_PORT])
      else
        .error "docker run failed"

/-- Model of `get_registry_ip`: prefer the IP on the `kind` network (guarded by
the all-networks inspect being nonempty), falling back to the legacy
bridge IP field, else `None`. -/
def get_registry_ip (v : RegNetView) : Option String :=
  if v.present then
    if !(pyStrip v.allIPs).isEmpty && !(pyStrip v.kindIP).isEmpty then
      some (pyStrip v.kindIP)
    else if !(pyStrip v.bridgeIP).isEmpty then
      some (pyStrip v.bridgeIP)
    else
      none
  else
    none

/-- Attempt bound of the registry-IP retry loop in
`configure_containerd_registry` (`max_retries = 5`, 2 s sleeps). -/
def ipMaxRetries : Nat := 5

/-- Sleep interval (seconds) between registry-IP retries. -/
def ipRetryIntervalSeconds : Nat := 2

/-- The bounded registry-IP retry of `configure_containerd_registry`:
first successful `get_registry_ip` within `ipMaxRetries` attempts,
with the number of attempts made. -/
def retry_registry_ip (sys : Sys) : Option String × Nat :=
  match (List.range ipMaxRetries).find? (fun i => (get_registry_ip (sys.regNet i)).isSome) with
  | some i => (get_registry_ip (sys.regNet i), i + 1)
  | none => (none, ipMaxRetries)

/-- The mirror host alias written into the node config. -/
def mirror_host : String := "localhost:" ++ REGISTRY_PORT

/-- Per-mirror-host override directory on a node. -/
def certsDir : String := "/etc/containerd/certs.d/" ++ mirror_host

/-- Path of the dedicated per-mirror-host override file. -/
def hostsTomlPath : String := certsDir ++ "/hosts.toml"

/-- Path of the node's main containerd config, which the directory-
override dialect only ever reads. -/
def mainConfigPath : String := "/etc/containerd/config.toml"

/-- The endpoint `configure_containerd_registry` targets: the resolved
IP when the bounded retry succeeds, else the container-name fallback. -/
def chosen_endpoint (sys : Sys) (regName : String) : String :=
  match (retry_registry_ip sys).fst with
  | some ip => "https://" ++ ip ++ ":" ++ REGISTRY_CONTAINER_PORT
  | none => "https://" ++ regName ++ ":" ++ REGISTRY_CONTAINER_PORT

/-- The `hosts.toml` content written for a given endpoint. -/
def hosts_toml (endpoint : String) : String :=
  "server = \"https://" ++ mirror_host ++ "\"\n\n[host.\"" ++ endpoint
    ++ "\"]\n  capabilities = [\"pull\", \"resolve\", \"push\"]\n  skip_verify = true\n"

/-- Per-node outcome of `configure_containerd_registry`. -/
inductive NodeStatus where
  | skipped
  | configured (runtimeReady : Bool)
  | writeFailed
deriving Repr, DecidableEq

/-- Attempt bound of the containerd liveness poll (`range(15)`, 1 s). -/
def ctrPollBound : Nat := 15

/-- The loop body of `configure_containerd_registry` for one node:
read the override file; skip when it already contains the endpoint;
otherwise mkdir, write, and (when the write succeeds) restart
containerd and poll `ctr version`. -/
def configure_node (endpoint : String) (nv : NodeView) : NodeStatus × List Eff :=
  let fresh : NodeStatus × List Eff :=
    if nv.writeOk then
      let ready := (pollUntil ctrPollBound nv.ctrOk).fst
      (.configured ready,
        [.execMkdir nv.name certsDir,
         .execWrite nv.name hostsTomlPath (hosts_toml endpoint),
         .restartContainerd nv.name])
    else
      (.writeFailed, [.execMkdir nv.name certsDir])
  match nv.readHosts with
  | some content =>
    if strContains content endpoint then (.skipped, []) else fresh
  | none => fresh

/-- Structured result of `configure_containerd_registry`. -/
structure ConfigResult where
  noNodes : Bool
  endpoint : String
  ipResolved : Bool
  statuses : List (String × NodeStatus)
deriving Repr, DecidableEq

/-- Model of `configure_containerd_registry`: list nodes (`check=True`, so a
failed listing raises), resolve the registry IP with a bounded retry
(falling back to the container-name endpoint with a warning), then
configure each node, skipping nodes whose override file already
contains the endpoint. -/
def configure_containerd_registry (sys : Sys) (regName : String) :
    Except String (ConfigResult × List Eff) :=
  match sys.nodesQuery with
  | none => .error "kubectl get nodes failed"
  | some nodes =>
    if nodes.isEmpty then
      .ok ({ noNodes := true, endpoint := "", ipResolved := false, statuses := [] }, [])
    else
      let ipRes := (retry_registry_ip sys).fst
      let endpoint := chosen_endpoint sys regName
      let per := nodes.map (fun nv => (nv, configure_node endpoint nv))
      .ok ({ noNodes := false, endpoint := endpoint, ipResolved := ipRes.isSome,
             statuses := per.map (fun p => (p.fst.name, p.snd.fst)) },
           (per.map (fun p => p.snd.snd)).flatten)

/-- Outcome of `ensure_registry_connected`; each constructor matches
one of the source's return sites. -/
inductive ConnectOutcome where
  | noNetwork
  | startFailed
  | alreadyConnected
  | connectedVerified
  | connectedUnverified
  | raceVerified
  | connectFailed
deriving Repr, DecidableEq

/-- The boolean `ensure_registry_connected` actually returns. -/
def ConnectOutcome.toBool : ConnectOutcome → Bool
  | .alreadyConnected => true
  | .connectedVerified => true
  | .connectedUnverified => true
  | .raceVerified => true
  | _ => false

/-- Attempt bound of the kind-network visibility polls
(`max_network_wait = 10`, 1 s sleeps). -/
def netWaitBound : Nat := 10

/-- Attempt bound of the registry-start wait and of the membership
verification poll (`max_start_wait = max_verify_wait = 5`, 1 s). -/
def shortWaitBound : Nat := 5

/-- Model of `ensure_registry_connected`: poll for the kind network, start the
registry if it is not running, inspect membership, connect when absent,
and re-verify; a failed connect is re-checked against membership and
treated as success when the registry is in fact attached. -/
def ensure_registry_connected (sys : Sys) (regName : String) :
    ConnectOutcome × List Eff :=
  let netFound := (pollUntil netWaitBound (fun i => strContains (sys.networkLs i) "kind")).fst
  if !netFound then
    (.noNetwork, [])
  else
    let started : Option (List Eff) :=
      if strContains sys.ercPs regName then some []
      else if sys.startOk then
        let _ := pollUntil shortWaitBound (fun i => strContains (sys.ercPsAfterStart i) regName)
        some [.dockerStart regName]
      else
        none
    match started with
    | none => (.startFailed, [.dockerStart regName])
    | some t0 =>
      if strContains sys.netInspect0 regName then
        (.alreadyConnected, t0)
      else
        let t1 := t0 ++ [.netConnect "kind" regName]
        if sys.connectOk then
          let verified := (pollUntil shortWaitBound
            (fun i => strContains (sys.netInspectVerify i) regName)).fst
          if verified then (.connectedVerified, t1) else (.connectedUnverified, t1)
        else
          if strContains sys.netInspectRecheck regName then
            (.raceVerified, t1)
          else
            (.connectFailed, t1)

/-- Outcome of `create_octopilot_system_namespace`. -/
inductive NsOutcome where
  | updatedExisting
  | created
  | createFailed
deriving Repr, DecidableEq

/-- Model of `create_octopilot_system_namespace`: apply the labelled namespace;
every command is `check=False`, so failure degrades to a warning plus a
bare `kubectl create namespace` fallback. -/
def create_octopilot_system_namespace (sys : Sys) : NsOutcome × List Eff :=
  if sys.nsExists then
    (.updatedExisting, [.kubectlApply "namespace octopilot-system"])
  else if sys.nsApplyOk then
    (.created, [.kubectlApply "namespace octopilot-system"])
  else
    (.createFailed,
      [.kubectlApply "namespace octopilot-system",
       .kubectlApply "namespace octopilot-system via kubectl create"])

/-- Outcome of the PVC creation helpers. -/
inductive PvcOutcome where
  | fileMissing
  | applied
  | alreadyThere
  | applyWarn
deriving Repr, DecidableEq

/-- Map an apply result to the PVC outcome the source logs. -/
def pvcOutcomeOf : ApplyRes → PvcOutcome
  | .ok => .applied
  | .alreadyExists => .alreadyThere
  | .failed => .applyWarn

/-- Model of `create_pvc`: skip with a warning when the manifest file is
missing, else apply it (`check=False`); an already-exists failure is
treated as success, any other failure as a warning. -/
def create_pvc (sys : Sys) : PvcOutcome × List Eff :=
  if !sys.pvcFileExists then
    (.fileMissing, [])
  else
    (pvcOutcomeOf sys.pvcApply, [.kubectlApply "controller cache pvc"])

/-- Model of `create_postgres_pvc`: ensure the pact-broker namespace exists,
then apply the inline postgres-data PVC, all `check=False`. -/
def create_postgres_pvc (sys : Sys) : PvcOutcome × List Eff :=
  let nsEffs : List Eff :=
    if sys.pgNsExists then [] else [.kubectlApply "namespace secret-manager-controller-pact-broker"]
  (pvcOutcomeOf sys.pgPvcApply, nsEffs ++ [.kubectlApply "postgres-data pvc"])

/-- Per-image outcome of `preload_required_images`. -/
inductive PreloadRes where
  | loaded
  | pullFailed
  | loadFailed
deriving Repr, DecidableEq

/-- The fixed preload list of `preload_required_images`. -/
def required_images : List String := ["busybox:1.36"]

/-- Preload one image: pull when absent locally (a failed pull skips
the image with a warning), then `kind load` it (a failed load also
only warns). -/
def preload_one (sys : Sys) (image : String) : PreloadRes × List Eff :=
  let doLoad : List Eff → PreloadRes × List Eff := fun pre =>
    if sys.loadOk image then (.loaded, pre ++ [.kindLoad image])
    else (.loadFailed, pre ++ [.kindLoad image])
  if strContains sys.localImages image then
    doLoad []
  else if sys.pullOk image then
    doLoad [.dockerPull image]
  else
    (.pullFailed, [.dockerPull image])

/-- Model of `preload_required_images` over the fixed image list. -/
def preload_required_images (sys : Sys) : List (String × PreloadRes) × List Eff :=
  let per := required_images.map (fun img => (img, preload_one sys img))
  (per.map (fun p => (p.fst, p.snd.fst)), (per.map (fun p => p.snd.snd)).flatten)

/-- Outcome of `install_secret_manager_crd`.  `established n` records
that the Established condition was observed on poll attempt `n`. -/
inductive CrdOutcome where
  | fileMissing
  | applyFailed
  | established (attempts : Nat)
  | timedOut
deriving Repr, DecidableEq

/-- Attempt bound of the CRD Established poll (`max_attempts = 30`,
2 s sleeps). -/
def crdPollBound : Nat := 30

/-- Number of Established poll attempts performed for an outcome. -/
def CrdOutcome.pollAttempts : CrdOutcome → Nat
  | .established n => n
  | .timedOut => crdPollBound
  | _ => 0

/-- Model of `install_secret_manager_crd`: when the committed CRD file exists,
apply it (`check=False`; failure warns and returns), then poll for the
Established condition up to `crdPollBound` times; exhaustion warns and
continues rather than failing. -/
def install_secret_manager_crd (sys : Sys) : CrdOutcome × List Eff :=
  if !sys.crdFileExists then
    (.fileMissing, [])
  else if !sys.crdApplyOk then
    (.applyFailed, [.kubectlApply "secretmanagerconfig crd"])
  else
    let poll := pollUntil crdPollBound sys.crdEstablished
    if poll.fst then
      (.established poll.snd, [.kubectlApply "secretmanagerconfig crd"])
    else
      (.timedOut, [.kubectlApply "secretmanagerconfig crd"])

/-- Outcome of one GitOps sub-script invocation. -/
inductive SubRes where
  | installed
  | failed
  | scriptMissing
deriving Repr, DecidableEq

/-- Model of `install_gitops_components`: run the FluxCD and ArgoCD install
sub-scripts when present; both are `check=False` collaborators whose
internals are out of scope. -/
def install_gitops_components (sys : Sys) : SubRes × SubRes :=
  (if !sys.fluxScriptExists then .scriptMissing
   else if sys.fluxOk then .installed else .failed,
   if !sys.argoScriptExists then .scriptMissing
   else if sys.argoOk then .installed else .failed)

/-- One attempt of the registry-accessibility verification after
cluster creation: fetch a node name, resolve the registry IP, ping it
from the node. -/
def registry_accessible_attempt (sys : Sys) (i : Nat) : Bool :=
  match sys.accFirstNode i with
  | none => false
  | some node =>
    match get_registry_ip (sys.accRegNet i) with
    | none => false
    | some ip => sys.ping i node ip

/-- The bounded (10 × 1 s) registry-accessibility verification loop of
`setup_kind_cluster`; exhaustion only warns. -/
def registry_accessible_loop (sys : Sys) : Bool × Nat :=
  pollUntil netWaitBound (registry_accessible_attempt sys)

/-- The bounded (10 × 1 s) wait for the cluster network to appear after
`kind create cluster`. -/
def networkReadyPoll (sys : Sys) : Bool × Nat :=
  pollUntil netWaitBound (fun i => strContains (sys.networkLs2 i) "kind")

/-- Everything `setup_kind_cluster` does after a fresh creation. -/
structure FreshResult where
  networkReady : Bool
  connect : ConnectOutcome
  registryAccessible : Bool
  cfg : ConfigResult
  nsRes : NsOutcome
  preload : List (String × PreloadRes)
  pvcRes : PvcOutcome
  pgPvcRes : PvcOutcome
  crd : CrdOutcome
  gitops : SubRes × SubRes
deriving Repr, DecidableEq

/-- Structured result of `setup_kind_cluster`: either the existing
cluster was reused (registry re-connected and nodes re-configured) or
a fresh cluster was created and fully provisioned. -/
inductive BootstrapResult where
  | reused (connect : ConnectOutcome) (cfg : ConfigResult)
  | fresh (r : FreshResult)
deriving Repr, DecidableEq

/-- The reuse path of `setup_kind_cluster`: `ensure_registry_connected`
(its boolean is discarded by the source here) followed by
`configure_containerd_registry`. -/
def reuse_path (sys : Sys) (regName : String) :
    Except String (BootstrapResult × List Eff) :=
  let erc := ensure_registry_connected sys regName
  match configure_containerd_registry sys regName with
  | .error e => .error e
  | .ok (cfg, t2) => .ok (.reused erc.fst cfg, erc.snd ++ t2)

/-- The fresh path of `setup_kind_cluster` after `kind create cluster`
succeeded: wait for the network (exhaustion is fatal only when the
cluster is also missing from `kind get clusters`), bind the registry
(failure is fatal), verify accessibility (warn only), configure nodes,
apply baseline resources (the local-registry-hosting ConfigMap apply is
`check=True` and hence fatal on failure), install the CRD and GitOps
components. -/
def fresh_after_create (sys : Sys) (regName : String) :
    Except String (BootstrapResult × List Eff) :=
  let netReady := (networkReadyPoll sys).fst
  if !netReady && !strContains sys.clustersAfterCreate CLUSTER_NAME then
    .error "kind network not found after cluster creation"
  else
    let erc := ensure_registry_connected sys regName
    if !erc.fst.toBool then
      .error "failed to connect registry to kind network"
    else
      let accessible := (registry_accessible_loop sys).fst
      match configure_containerd_registry sys regName with
      | .error e => .error e
      | .ok (cfg, t2) =>
        let nsRes := create_octopilot_system_namespace sys
        let pre := preload_required_images sys
        let pvcRes := create_pvc sys
        let pgRes := create_postgres_pvc sys
        if !sys.configmapApplyOk then
          .error "failed to apply local-registry-hosting configmap"
        else
          let crd := install_secret_manager_crd sys
          let gitops := install_gitops_components sys
          .ok (.fresh { networkReady := netReady, connect := erc.fst,
                        registryAccessible := accessible, cfg := cfg,
                        nsRes := nsRes.fst, preload := pre.fst,
                        pvcRes := pvcRes.fst, pgPvcRes := pgRes.fst,
                        crd := crd.fst, gitops := gitops },
               erc.snd ++ t2 ++ nsRes.snd ++ pre.snd ++ pvcRes.snd ++ pgRes.snd
                 ++ [.kubectlApply "local-registry-hosting configmap"] ++ crd.snd)

/-- The creation arm of `setup_kind_cluster`: fatal when the topology
config file is missing; on a failed `kind create` whose output says the
cluster already exists, fall back to the reuse path; on success run the
fresh provisioning sequence. -/
def create_path (sys : Sys) (regName : String) (pre : List Eff) :
    Except String (BootstrapResult × List Eff) :=
  if !sys.kindConfigExists then
    .error "kind-config.yaml not found"
  else if sys.createOk then
    match fresh_after_create sys regName with
    | .error e => .error e
    | .ok (r, t) => .ok (r, pre ++ [.kindCreate] ++ t)
  else if sys.createSaysExists then
    match reuse_path sys regName with
    | .error e => .error e
    | .ok (r, t) => .ok (r, pre ++ [.kindCreate] ++ t)
  else
    .error "failed to create kind cluster"

/-- Model of `setup_kind_cluster`: reuse the listed cluster (prompting in
interactive mode, where a recreate answer deletes it first with a
`check=True` delete), else create and provision a fresh one. -/
def setup_kind_cluster (sys : Sys) (regName : String) :
    Except String (BootstrapResult × List Eff) :=
  if strContains sys.clusters0 CLUSTER_NAME then
    if sys.nonInteractive then
      reuse_path sys regName
    else if sys.promptRecreateYes then
      if sys.deleteOk then
        create_path sys regName [.kindDelete]
      else
        .error "kind delete cluster failed"
    else
      reuse_path sys regName
  else
    create_path sys regName []

/-- The full bootstrap of `main`: `setup_registry` followed by
`setup_kind_cluster`, threading the possibly-adopted registry name. -/
def bootstrap (sys : Sys) : Except String ((String × BootstrapResult) × List Eff) :=
  match setup_registry sys with
  | .error e => .error e
  | .ok (name, t1) =>
    match setup_kind_cluster sys name with
    | .error e => .error e
    | .ok (r, t2) => .ok ((name, r), t1 ++ t2)

/-- Did the run abort (a `sys.exit` or a raised `CalledProcessError`)? -/
def isFatal : Except String α → Bool
  | .error _ => true
  | .ok _ => false

/-- The node an effect acts on through the exec channel, if any. -/
def Eff.nodeOf : Eff → Option String
  | .execMkdir n _ => some n
  | .execWrite n _ _ => some n
  | .restartContainerd n => some n
  | _ => none

/-- A node's file system as visible to this script: the main containerd
config and the per-host override files. -/
structure NodeFS where
  mainConfig : String
  overrides : List (String × String)
deriving Repr, DecidableEq

/-- Interpret one effect on one node's file system: only an
`execWrite` against that node changes a file. -/
def applyEff (node : String) (fs : NodeFS) : Eff → NodeFS
  | .execWrite n path content =>
    if n = node then
      if path = mainConfigPath then { fs with mainConfig := content }
      else { fs with overrides := (path, content) :: fs.overrides }
    else fs
  | _ => fs

/-- Run a whole trace against one node's file system. -/
def runTrace (node : String) (fs : NodeFS) (t : List Eff) : NodeFS :=
  t.foldl (applyEff node) fs

-- Concrete environments for witnesses and counterexamples.

/-- A registry attached to the kind network with an assigned IP. -/
def regNetUp : RegNetView :=
  { present := true, allIPs := "172.19.0.3", kindIP := "172.19.0.3", bridgeIP := "" }

/-- A registry attached to the kind network whose IP is not yet
assigned (and no legacy bridge IP either). -/
def regNetNoIP : RegNetView :=
  { present := true, allIPs := "", kindIP := "", bridgeIP := "" }

/-- The endpoint the healthy environments resolve to. -/
def upEndpoint : String := "https://172.19.0.3:" ++ REGISTRY_CONTAINER_PORT

/-- A node whose override file already carries the desired endpoint. -/
def nodeCurrent : NodeView :=
  { name := "secret-manager-controller-control-plane",
    readHosts := some (hosts_toml upEndpoint),
    writeOk := true, grepCerts := some 1, ctrOk := fun _ => true }

/-- A node with no override file yet that configures cleanly. -/
def nodeFresh : NodeView :=
  { name := "secret-manager-controller-worker",
    readHosts := none,
    writeOk := true, grepCerts := some 1, ctrOk := fun _ => true }

/-- A healthy steady-state environment: named registry running,
cluster up and listed, network bound, node already configured. -/
def sysBase : Sys :=
  { psAll := REGISTRY_NAME ++ "\n"
    psRunning := REGISTRY_NAME ++ "\n"
    portLines := []
    imageOf := fun _ => none
    dockerRunOk := true
    networkLs := fun _ => "bridge\nhost\nkind\n"
    ercPs := REGISTRY_NAME ++ "\n"
    startOk := true
    ercPsAfterStart := fun _ => REGISTRY_NAME ++ "\n"
    netInspect0 := REGISTRY_NAME ++ "\n"
    connectOk := true
    netInspectVerify := fun _ => REGISTRY_NAME ++ "\n"
    netInspectRecheck := REGISTRY_NAME ++ "\n"
    nodesQuery := some [nodeCurrent]
    regNet := fun _ => regNetUp
    clusters0 := CLUSTER_NAME ++ "\n"
    nonInteractive := true
    promptRecreateYes := false
    deleteOk := true
    kindConfigExists := true
    createOk := true
    createSaysExists := false
    networkLs2 := fun _ => "bridge\nhost\nkind\n"
    clustersAfterCreate := CLUSTER_NAME ++ "\n"
    accFirstNode := fun _ => some "secret-manager-controller-control-plane"
    accRegNet := fun _ => regNetUp
    ping := fun _ _ _ => true
    nsExists := false
    nsApplyOk := true
    pvcFileExists := true
    pvcApply := .ok
    pgNsExists := false
    pgPvcApply := .ok
    localImages := "busybox:1.36\n"
    pullOk := fun _ => true
    loadOk := fun _ => true
    configmapApplyOk := true
    crdFileExists := true
    crdApplyOk := true
    crdEstablished := fun _ => true
    fluxScriptExists := true
    fluxOk := true
    argoScriptExists := true
    argoOk := true }

/-- A node that never answers the containerd liveness probe. -/
def nodeDead : NodeView :=
  { name := "secret-manager-controller-worker2",
    readHosts := none,
    writeOk := true, grepCerts := some 1, ctrOk := fun _ => false }

/-- Environment exposing the substring-membership slip of
`setup_registry`: the named registry exists but is stopped, while a
differently named container whose name merely contains the desired name
is running. -/
def sysC2 : Sys :=
  { sysBase with
    psAll := "octopilot-registry\noctopilot-registry-blue\n"
    psRunning := "octopilot-registry-blue\n" }

/-- Fresh-creation environment in which the registry's IP on the kind
network never resolves (attached, IP still unassigned). -/
def sysC4 : Sys :=
  { sysBase with
    clusters0 := ""
    regNet := fun _ => regNetNoIP
    accRegNet := fun _ => regNetNoIP
    nodesQuery := some [nodeFresh] }

/-- Fresh-creation environment whose topology config file is missing
while network binding itself would succeed. -/
def sysC5 : Sys :=
  { sysBase with clusters0 := "", kindConfigExists := false }

/-- Fresh-creation environment in which network binding fails (the
kind network never becomes visible to `ensure_registry_connected`). -/
def sysFreshBindFail : Sys :=
  { sysBase with clusters0 := "", networkLs := fun _ => "bridge\nhost\n" }

/-- Reused-cluster environment in which network binding fails. -/
def sysReuseBindFail : Sys :=
  { sysBase with networkLs := fun _ => "bridge\nhost\n" }

/-- Fresh-creation environment in which every degradeable step fails:
node write ok but runtime dead, namespace and PVC applies fail, image
pull and load fail, CRD never establishes, GitOps scripts fail. -/
def sysFreshDegraded : Sys :=
  { sysBase with
    clusters0 := ""
    nodesQuery := some [nodeDead]
    nsApplyOk := false
    pvcApply := .failed
    pgPvcApply := .failed
    pullOk := fun _ => false
    loadOk := fun _ => false
    localImages := ""
    crdEstablished := fun _ => false
    fluxOk := false
    argoOk := false }

/-- Fresh-creation environment in which every bounded poll loop is
exhausted: the cluster network never shows in the post-create poll, the
registry IP never resolves, the CRD never establishes, and the node's
runtime never answers the liveness probe. -/
def sysC8 : Sys :=
  { sysBase with
    clusters0 := ""
    networkLs2 := fun _ => "bridge\nhost\n"
    regNet := fun _ => regNetNoIP
    accRegNet := fun _ => regNetNoIP
    crdEstablished := fun _ => false
    nodesQuery := some [nodeDead] }

/-- Environment where the connect call fails but membership inspection
then shows the registry attached (concurrent-binder race). -/
def sysRace : Sys :=
  { sysBase with connectOk := false, netInspect0 := "" }

/-- Environment where the connect call fails and the registry is also
absent from the re-inspected membership. -/
def sysConnFail : Sys :=
  { sysBase with
    connectOk := false, netInspect0 := "", netInspectRecheck := "" }

/-- Environment where the connect call succeeds but the bounded
membership verification never observes the registry. -/
def sysC10 : Sys :=
  { sysBase with
    netInspect0 := "", netInspectVerify := fun _ => "" }

/-- Steady-state environment with one not-yet-configured node. -/
def sysW : Sys :=
  { sysBase with nodesQuery := some [nodeFresh] }

deriving instance DecidableEq for Except

-- Generic facts about the bounded polling loops.

/-- A poll loop never makes more attempts than its bound. -/
theorem pollUntil_snd_le (bound : Nat) (p : Nat → Bool) :
    (pollUntil bound p).snd ≤ bound := by
  unfold pollUntil
  split
  · next i h =>
    have hi := List.mem_range.mp (List.mem_of_find?_eq_some h)
    simpa using hi
  · simp

/-- When the condition never holds within the bound, the loop makes
exactly `bound` attempts and reports failure. -/
theorem pollUntil_exhausted (bound : Nat) (p : Nat → Bool)
    (h : ∀ i, i < bound → p i = false) : pollUntil bound p = (false, bound) := by
  unfold pollUntil
  have hn : (List.range bound).find? p = none := by
    rw [List.find?_eq_none]
    intro x hx
    simp [h x (List.mem_range.mp hx)]
  rw [hn]

/-- When the condition holds somewhere within the bound, the loop
reports success. -/
theorem pollUntil_found (bound : Nat) (p : Nat → Bool) (i : Nat)
    (hi : i < bound) (hp : p i = true) : (pollUntil bound p).fst = true := by
  unfold pollUntil
  split
  · simp
  · next h =>
    rw [List.find?_eq_none] at h
    exact absurd hp (by simpa using h i (List.mem_range.mpr hi))

/-- A successful poll made at least one attempt. -/
theorem pollUntil_success_attempts (bound : Nat) (p : Nat → Bool)
    (h : (pollUntil bound p).fst = true) : 1 ≤ (pollUntil bound p).snd := by
  unfold pollUntil at h ⊢
  split at h
  · simp
  · simp at h

-- Shape lemmas about the traces the modelled functions can emit.

/-- Network binding (`ensure_registry_connected`) only ever issues a `docker start` and a
`docker network connect`. -/
theorem erc_trace_cases (sys : Sys) (regName : String) :
    (ensure_registry_connected sys regName).snd = [] ∨
    (ensure_registry_connected sys regName).snd = [Eff.dockerStart regName] ∨
    (ensure_registry_connected sys regName).snd = [Eff.netConnect "kind" regName] ∨
    (ensure_registry_connected sys regName).snd =
      [Eff.dockerStart regName, Eff.netConnect "kind" regName] := by
  unfold ensure_registry_connected
  cases hnet : (pollUntil netWaitBound fun i => strContains (sys.networkLs i) "kind").fst <;>
  cases hA : strContains sys.ercPs regName <;>
  cases hB : sys.startOk <;>
  cases hC : strContains sys.netInspect0 regName <;>
  cases hD : sys.connectOk <;>
  cases hV : (pollUntil shortWaitBound fun i => strContains (sys.netInspectVerify i) regName).fst <;>
  cases hE : strContains sys.netInspectRecheck regName <;>
  simp [hnet, hA, hB, hC, hD, hV, hE]

/-- Network binding never restarts a runtime and never creates a
container. -/
theorem erc_no_restart_no_run (sys : Sys) (regName : String) :
    ((ensure_registry_connected sys regName).snd).countP Eff.isRestart = 0 ∧
    ((ensure_registry_connected sys regName).snd).countP Eff.isDockerRun = 0 := by
  rcases erc_trace_cases sys regName with h | h | h | h <;> rw [h] <;> exact ⟨rfl, rfl⟩

/-- A node whose override file already contains the desired endpoint is
skipped with no effects at all. -/
theorem configure_node_skip (endpoint : String) (nv : NodeView) (c : String)
    (hr : nv.readHosts = some c) (hc : strContains c endpoint = true) :
    configure_node endpoint nv = (.skipped, []) := by
  unfold configure_node
  rw [hr]
  simp [hc]

/-- The three possible per-node traces: skipped, write-failed after the
mkdir, or fully configured (mkdir, override write, runtime restart). -/
theorem configure_node_trace_cases (endpoint : String) (nv : NodeView) :
    (configure_node endpoint nv).snd = [] ∨
    (configure_node endpoint nv).snd = [Eff.execMkdir nv.name certsDir] ∨
    (configure_node endpoint nv).snd =
      [Eff.execMkdir nv.name certsDir,
       Eff.execWrite nv.name hostsTomlPath (hosts_toml endpoint),
       Eff.restartContainerd nv.name] := by
  unfold configure_node
  rcases hr : nv.readHosts with _ | c
  · cases hW : nv.writeOk <;> simp [hW]
  · cases hW : nv.writeOk <;> cases hc : strContains c endpoint <;> simp [hW, hc]

/-- Every effect a node's configuration emits is tagged with that
node's name. -/
theorem configure_node_eff_node (endpoint : String) (nv : NodeView) :
    ∀ e ∈ (configure_node endpoint nv).snd, e.nodeOf = some nv.name := by
  intro e he
  rcases configure_node_trace_cases endpoint nv with h | h | h <;> rw [h] at he <;>
    simp at he <;> rcases he with rfl | he <;> try rfl
  · rcases he with rfl | rfl <;> rfl

/-- Every effect of `configure_containerd_registry` comes from the
configuration of one of the listed nodes. -/
theorem config_trace_mem (sys : Sys) (regName : String) (nodes : List NodeView)
    (h : sys.nodesQuery = some nodes) (res : ConfigResult) (t : List Eff)
    (hok : configure_containerd_registry sys regName = .ok (res, t)) :
    ∀ e ∈ t, ∃ nv ∈ nodes, e ∈ (configure_node res.endpoint nv).snd := by
  intro e he
  unfold configure_containerd_registry at hok
  rw [h] at hok
  by_cases hne : nodes.isEmpty
  · simp [hne] at hok
    obtain ⟨_, rfl⟩ := hok
    simp at he
  · simp [hne] at hok
    obtain ⟨hres, rfl⟩ := hok
    rw [List.mem_flatten] at he
    obtain ⟨l, hl, hel⟩ := he
    simp at hl
    obtain ⟨nv, hnv, rfl⟩ := hl
    exact ⟨nv, hnv, by rw [← hres]; exact hel⟩

/-- Closed form of `configure_containerd_registry` on a nonempty node
list. -/
theorem config_ok_form (sys : Sys) (regName : String) (nodes : List NodeView)
    (h : sys.nodesQuery = some nodes) (hne : nodes.isEmpty = false) :
    configure_containerd_registry sys regName = .ok
      ({ noNodes := false, endpoint := chosen_endpoint sys regName,
         ipResolved := (retry_registry_ip sys).fst.isSome,
         statuses := nodes.map
           (fun nv => (nv.name, (configure_node (chosen_endpoint sys regName) nv).fst)) },
       (nodes.map (fun nv => (configure_node (chosen_endpoint sys regName) nv).snd)).flatten) := by
  unfold configure_containerd_registry
  rw [h]
  simp [hne, List.map_map, Function.comp_def]

/-- With the node listing succeeding, `configure_containerd_registry`
never aborts. -/
theorem config_ok_exists (sys : Sys) (regName : String) (nodes : List NodeView)
    (h : sys.nodesQuery = some nodes) :
    ∃ res t, configure_containerd_registry sys regName = .ok (res, t) := by
  cases hne : nodes.isEmpty
  · exact ⟨_, _, config_ok_form sys regName nodes h hne⟩
  · refine ⟨{ noNodes := true, endpoint := "", ipResolved := false, statuses := [] }, [], ?_⟩
    unfold configure_containerd_registry
    rw [h]
    simp [hne]

/-- The registry-IP retry never makes more attempts than its bound. -/
theorem retry_ip_snd_le (sys : Sys) : (retry_registry_ip sys).snd ≤ ipMaxRetries := by
  unfold retry_registry_ip
  split
  · next i h =>
    have hi := List.mem_range.mp (List.mem_of_find?_eq_some h)
    simpa using hi
  · simp

/-- When the IP never resolves within the bound, the retry makes
exactly `ipMaxRetries` attempts and reports no IP. -/
theorem retry_ip_exhausted (sys : Sys)
    (hip : ∀ i, i < ipMaxRetries → get_registry_ip (sys.regNet i) = none) :
    retry_registry_ip sys = (none, ipMaxRetries) := by
  unfold retry_registry_ip
  have hfind : (List.range ipMaxRetries).find?
      (fun i => (get_registry_ip (sys.regNet i)).isSome) = none := by
    rw [List.find?_eq_none]
    intro x hx
    simp [hip x (List.mem_range.mp hx)]
  rw [hfind]

-- Claim theorems.

/-- C1: a second run of the full bootstrap (`setup_registry` then
`setup_kind_cluster`) against the state the first successful run left
behind — the named registry present and running, the cluster listed
(non-interactive reuse), the node listing succeeding, and every node's
override file already containing the endpoint the run computes —
performs zero container-runtime restarts and issues zero `docker run`
commands. -/
theorem second_run_idempotent (sys : Sys) (nodes : List NodeView)
    (hpsAll : strContains sys.psAll REGISTRY_NAME = true)
    (hpsRun : strContains sys.psRunning REGISTRY_NAME = true)
    (hclu : strContains sys.clusters0 CLUSTER_NAME = true)
    (hni : sys.nonInteractive = true)
    (hn : sys.nodesQuery = some nodes)
    (hcur : ∀ nv ∈ nodes, ∃ c, nv.readHosts = some c ∧
        strContains c (chosen_endpoint sys REGISTRY_NAME) = true) :
    ∃ r t, bootstrap sys = .ok ((REGISTRY_NAME, r), t) ∧
      t.countP Eff.isRestart = 0 ∧ t.countP Eff.isDockerRun = 0 := by
  have hreg : setup_registry sys = .ok (REGISTRY_NAME, []) := by
    unfold setup_registry
    simp [hpsAll, hpsRun]
  have hcfg : ∃ res, configure_containerd_registry sys REGISTRY_NAME = .ok (res, []) := by
    cases hne : nodes.isEmpty
    · have hflat : (nodes.map
          (fun nv => (configure_node (chosen_endpoint sys REGISTRY_NAME) nv).snd)).flatten = [] := by
        rw [List.flatten_eq_nil_iff]
        intro l hl
        simp only [List.mem_map] at hl
        obtain ⟨nv, hnv, rfl⟩ := hl
        obtain ⟨c, hr, hc⟩ := hcur nv hnv
        rw [configure_node_skip _ nv c hr hc]
      refine ⟨{ noNodes := false, endpoint := chosen_endpoint sys REGISTRY_NAME,
                ipResolved := ((retry_registry_ip sys).fst).isSome,
                statuses := nodes.map (fun nv =>
                  (nv.name, (configure_node (chosen_endpoint sys REGISTRY_NAME) nv).fst)) }, ?_⟩
      rw [config_ok_form sys REGISTRY_NAME nodes hn hne, hflat]
    · refine ⟨{ noNodes := true, endpoint := "", ipResolved := false, statuses := [] }, ?_⟩
      unfold configure_containerd_registry
      rw [hn]
      simp [hne]
  obtain ⟨res, hcfg⟩ := hcfg
  have herc := erc_no_restart_no_run sys REGISTRY_NAME
  have hclus : setup_kind_cluster sys REGISTRY_NAME =
      .ok (.reused (ensure_registry_connected sys REGISTRY_NAME).fst res,
           (ensure_registry_connected sys REGISTRY_NAME).snd ++ []) := by
    unfold setup_kind_cluster reuse_path
    simp [hclu, hni, hcfg]
  have hboot : bootstrap sys =
      .ok ((REGISTRY_NAME, .reused (ensure_registry_connected sys REGISTRY_NAME).fst res),
           (ensure_registry_connected sys REGISTRY_NAME).snd ++ []) := by
    unfold bootstrap
    simp only [hreg, hclus]
    simp
  refine ⟨_, _, hboot, ?_, ?_⟩
  · simp [List.countP_append, herc.1]
  · simp [List.countP_append, herc.2]

/-- C1 witness: the steady-state environment, concretely. -/
theorem second_run_idempotent_witness :
    ∃ r t, bootstrap sysBase = .ok ((REGISTRY_NAME, r), t) ∧
      t.countP Eff.isRestart = 0 ∧ t.countP Eff.isDockerRun = 0 := by
  refine second_run_idempotent sysBase [nodeCurrent]
    (by decide) (by decide) (by decide) rfl rfl ?_
  intro nv hv
  rw [List.mem_singleton] at hv
  subst hv
  exact ⟨hosts_toml upEndpoint, rfl, by decide⟩

/-- C2 (code bug): `setup_registry` tests container names by Python
substring membership on the raw `docker ps` stdout.  With the named
registry present but stopped and a running container whose name merely
contains the desired name, the running-check wrongly succeeds: the
function returns the desired name having issued no `docker start` (and
nothing else), although its own documented preference order requires
the stopped container to be started. -/
theorem setup_registry_substring_slip :
    (linesOf sysC2.psAll).contains REGISTRY_NAME = true ∧
    (linesOf sysC2.psRunning).contains REGISTRY_NAME = false ∧
    setup_registry sysC2 = .ok (REGISTRY_NAME, []) :=
  ⟨by decide, by decide, by decide⟩

/-- C3: a node whose runtime-config read succeeds and already contains
the exact desired endpoint string is reported Skipped, and the
operation's trace holds no config write and no runtime restart for that
node (node names assumed distinct, as cluster node names are). -/
theorem node_skip_if_current (sys : Sys) (regName : String) (nodes : List NodeView)
    (h : sys.nodesQuery = some nodes)
    (hnd : (nodes.map NodeView.name).Nodup)
    (nv : NodeView) (hmem : nv ∈ nodes) (c : String)
    (hr : nv.readHosts = some c)
    (hc : strContains c (chosen_endpoint sys regName) = true) :
    ∃ res t, configure_containerd_registry sys regName = .ok (res, t) ∧
      (nv.name, NodeStatus.skipped) ∈ res.statuses ∧
      Eff.restartContainerd nv.name ∉ t ∧
      ∀ path content, Eff.execWrite nv.name path content ∉ t := by
  have hne : nodes.isEmpty = false := by
    cases nodes
    · cases hmem
    · rfl
  have hskip := configure_node_skip (chosen_endpoint sys regName) nv c hr hc
  have hkey : ∀ e ∈ (nodes.map
      (fun x => (configure_node (chosen_endpoint sys regName) x).snd)).flatten,
      e.nodeOf ≠ some nv.name := by
    intro e he hn
    rw [List.mem_flatten] at he
    obtain ⟨l, hl, hel⟩ := he
    simp only [List.mem_map] at hl
    obtain ⟨nv', hnv', rfl⟩ := hl
    have hname := configure_node_eff_node (chosen_endpoint sys regName) nv' e hel
    rw [hn] at hname
    have heq : nv' = nv := by
      apply List.inj_on_of_nodup_map hnd hnv' hmem
      exact (Option.some_injective _ hname.symm)
    subst heq
    rw [hskip] at hel
    cases hel
  refine ⟨_, _, config_ok_form sys regName nodes h hne, ?_, ?_, ?_⟩
  · have := List.mem_map_of_mem
      (fun x => (x.name, (configure_node (chosen_endpoint sys regName) x).fst)) hmem
    simpa [hskip] using this
  · intro habs
    exact hkey _ habs rfl
  · intro path content habs
    exact hkey _ habs rfl

/-- C3 witness: the already-configured node, concretely. -/
theorem node_skip_if_current_witness :
    ∃ res t, configure_containerd_registry sysBase REGISTRY_NAME = .ok (res, t) ∧
      (nodeCurrent.name, NodeStatus.skipped) ∈ res.statuses ∧
      Eff.restartContainerd nodeCurrent.name ∉ t ∧
      ∀ path content, Eff.execWrite nodeCurrent.name path content ∉ t :=
  node_skip_if_current sysBase REGISTRY_NAME [nodeCurrent] rfl (by decide)
    nodeCurrent (List.mem_singleton.mpr rfl) (hosts_toml upEndpoint) rfl (by decide)

/-- C6: when the CRD file exists and its apply succeeds, the installer
performs between 1 and 30 Established poll attempts before returning,
its only apply is the CRD itself (so no dependent resource is touched
by the provisioner), and exhausting the bound yields the warned
`timedOut` outcome rather than a failure. -/
theorem crd_poll_after_apply (sys : Sys)
    (hfile : sys.crdFileExists = true) (happly : sys.crdApplyOk = true) :
    1 ≤ ((install_secret_manager_crd sys).fst).pollAttempts ∧
    ((install_secret_manager_crd sys).fst).pollAttempts ≤ crdPollBound ∧
    (install_secret_manager_crd sys).snd = [Eff.kubectlApply "secretmanagerconfig crd"] ∧
    ((∀ i, i < crdPollBound → sys.crdEstablished i = false) →
      (install_secret_manager_crd sys).fst = .timedOut) := by
  have hle := pollUntil_snd_le crdPollBound sys.crdEstablished
  cases hb : (pollUntil crdPollBound sys.crdEstablished).fst
  · have heq : install_secret_manager_crd sys =
        (.timedOut, [Eff.kubectlApply "secretmanagerconfig crd"]) := by
      unfold install_secret_manager_crd
      simp [hfile, happly, hb]
    rw [heq]
    exact ⟨by decide, by decide, rfl, fun _ => rfl⟩
  · have heq : install_secret_manager_crd sys =
        (.established (pollUntil crdPollBound sys.crdEstablished).snd,
         [Eff.kubectlApply "secretmanagerconfig crd"]) := by
      unfold install_secret_manager_crd
      simp [hfile, happly, hb]
    rw [heq]
    have h1 := pollUntil_success_attempts crdPollBound sys.crdEstablished hb
    refine ⟨h1, hle, rfl, ?_⟩
    intro hexh
    have hx := pollUntil_exhausted crdPollBound sys.crdEstablished hexh
    rw [hx] at hb
    cases hb

/-- C6 witness: the steady-state environment, concretely. -/
theorem crd_poll_after_apply_witness :
    1 ≤ ((install_secret_manager_crd sysBase).fst).pollAttempts ∧
    ((install_secret_manager_crd sysBase).fst).pollAttempts ≤ crdPollBound ∧
    (install_secret_manager_crd sysBase).snd = [Eff.kubectlApply "secretmanagerconfig crd"] ∧
    ((∀ i, i < crdPollBound → sysBase.crdEstablished i = false) →
      (install_secret_manager_crd sysBase).fst = .timedOut) :=
  crd_poll_after_apply sysBase rfl rfl

/-- Every override write of a node configuration targets the per-host
`hosts.toml`, never any other path. -/
theorem configure_node_write_path (endpoint : String) (nv : NodeView) :
    ∀ e ∈ (configure_node endpoint nv).snd,
      ∀ n p c, e = Eff.execWrite n p c → p = hostsTomlPath := by
  intro e he n p c rfl
  rcases configure_node_trace_cases endpoint nv with h | h | h <;> rw [h] at he <;> simp_all

/-- Folding a trace whose writes all avoid the main config path leaves
the main config untouched. -/
theorem runTrace_main_preserved (node : String) (t : List Eff)
    (h : ∀ n p c, Eff.execWrite n p c ∈ t → p ≠ mainConfigPath) :
    ∀ fs : NodeFS, (runTrace node fs t).mainConfig = fs.mainConfig := by
  induction t with
  | nil => intro fs; rfl
  | cons e rest ih =>
    intro fs
    have hrest : ∀ n p c, Eff.execWrite n p c ∈ rest → p ≠ mainConfigPath := by
      intro n p c hm
      exact h n p c (List.mem_cons_of_mem _ hm)
    have hstep : (applyEff node fs e).mainConfig = fs.mainConfig := by
      cases e with
      | execWrite n p c =>
        have hp := h n p c (List.mem_cons_self _ _)
        unfold applyEff
        by_cases hn : n = node
        · simp [hn, hp]
        · simp [hn]
      | _ => rfl
    calc (runTrace node fs (e :: rest)).mainConfig
        = (runTrace node (applyEff node fs e) rest).mainConfig := rfl
      _ = (applyEff node fs e).mainConfig := ih hrest (applyEff node fs e)
      _ = fs.mainConfig := hstep

/-- C9: under the certs.d directory-override dialect, every file the
node configuration writes is the dedicated per-mirror-host
`hosts.toml`, and interpreting the whole trace against any node's file
system leaves `/etc/containerd/config.toml` byte-identical. -/
theorem override_dialect_frame (sys : Sys) (regName : String)
    (res : ConfigResult) (t : List Eff)
    (hok : configure_containerd_registry sys regName = .ok (res, t)) :
    (∀ n p c, Eff.execWrite n p c ∈ t → p = hostsTomlPath) ∧
    ∀ (node : String) (fs : NodeFS), (runTrace node fs t).mainConfig = fs.mainConfig := by
  cases hq : sys.nodesQuery with
  | none =>
    unfold configure_containerd_registry at hok
    rw [hq] at hok
    cases hok
  | some nodes =>
    have hpaths : ∀ n p c, Eff.execWrite n p c ∈ t → p = hostsTomlPath := by
      intro n p c hm
      obtain ⟨nv, _, hin⟩ := config_trace_mem sys regName nodes hq res t hok _ hm
      exact configure_node_write_path res.endpoint nv _ hin n p c rfl
    refine ⟨hpaths, fun node fs => runTrace_main_preserved node t ?_ fs⟩
    intro n p c hm
    rw [hpaths n p c hm]
    decide

/-- C9 witness: a run that does write and restart one node, interpreted
against one node's file system, concretely. -/
theorem override_dialect_frame_witness :
    (runTrace "secret-manager-controller-worker"
      { mainConfig := "# kind default containerd config", overrides := [] }
      [Eff.execMkdir "secret-manager-controller-worker" certsDir,
       Eff.execWrite "secret-manager-controller-worker" hostsTomlPath (hosts_toml upEndpoint),
       Eff.restartContainerd "secret-manager-controller-worker"]).mainConfig =
    "# kind default containerd config" :=
  (override_dialect_frame sysW REGISTRY_NAME
    { noNodes := false, endpoint := upEndpoint, ipResolved := true,
      statuses := [("secret-manager-controller-worker", NodeStatus.configured true)] }
    [Eff.execMkdir "secret-manager-controller-worker" certsDir,
     Eff.execWrite "secret-manager-controller-worker" hostsTomlPath (hosts_toml upEndpoint),
     Eff.restartContainerd "secret-manager-controller-worker"]
    (by decide)).2 _ _

/-- C4 counterexample: on a freshly created cluster whose registry IP
never resolves (and with everything else healthy), the bootstrap does
NOT abort: it completes, with the node configuration falling back to
the container-name endpoint — refuting the claim that IP-resolution
absence is fatal on fresh-cluster creation. -/
theorem fresh_ip_unresolved_not_fatal :
    (∀ i, get_registry_ip (sysC4.regNet i) = none) ∧
    strContains sysC4.clusters0 CLUSTER_NAME = false ∧
    ∃ r t, setup_kind_cluster sysC4 REGISTRY_NAME = .ok (.fresh r, t) ∧
      r.cfg.ipResolved = false ∧
      r.cfg.endpoint = "https://" ++ REGISTRY_NAME ++ ":" ++ REGISTRY_CONTAINER_PORT := by
  refine ⟨fun _ => rfl, by decide, ⟨_, _, rfl, by decide, by decide⟩⟩

/-- C4 (amended): when the registry IP cannot be resolved within the
bounded retry, `configure_containerd_registry` never aborts — on fresh
and reused clusters alike it degrades to a warning and falls back to
the container-name endpoint. -/
theorem ip_fallback_warning (sys : Sys) (regName : String) (nodes : List NodeView)
    (h : sys.nodesQuery = some nodes) (hne : nodes.isEmpty = false)
    (hip : ∀ i, i < ipMaxRetries → get_registry_ip (sys.regNet i) = none) :
    ∃ res t, configure_containerd_registry sys regName = .ok (res, t) ∧
      res.ipResolved = false ∧
      res.endpoint = "https://" ++ regName ++ ":" ++ REGISTRY_CONTAINER_PORT := by
  have hretry := retry_ip_exhausted sys hip
  refine ⟨_, _, config_ok_form sys regName nodes h hne, ?_, ?_⟩
  · simp [hretry]
  · simp [chosen_endpoint, hretry]

/-- C4 witness: the unresolvable-IP environment, concretely. -/
theorem ip_fallback_warning_witness :
    ∃ res t, configure_containerd_registry sysC4 REGISTRY_NAME = .ok (res, t) ∧
      res.ipResolved = false ∧
      res.endpoint = "https://" ++ REGISTRY_NAME ++ ":" ++ REGISTRY_CONTAINER_PORT :=
  ip_fallback_warning sysC4 REGISTRY_NAME [nodeFresh] rfl rfl (fun _ _ => rfl)

/-- C5 counterexample: the bootstrap also aborts when the topology
config file is missing, even though network binding would succeed —
refuting the claim that it aborts only on a network-binding failure of
a freshly created cluster. -/
theorem abort_without_bind_failure :
    ((ensure_registry_connected sysC5 REGISTRY_NAME).fst).toBool = true ∧
    isFatal (setup_kind_cluster sysC5 REGISTRY_NAME) = true :=
  ⟨by decide, by decide⟩

/-- C5 (amended): on a fresh creation a network-binding failure aborts
the bootstrap, on a reused cluster it does not, and the degradeable
steps (node configuration once the node listing succeeds, namespaces,
PVCs, image preload, CRD establishment, GitOps scripts) can never
abort; but the bootstrap can also abort for other reasons — missing
topology file, failed cluster create, failed node listing, or a failed
registry-hosting ConfigMap apply. -/
theorem abort_policy (sys : Sys) (regName : String) :
    ((strContains sys.clusters0 CLUSTER_NAME = false) →
      sys.kindConfigExists = true → sys.createOk = true →
      ((ensure_registry_connected sys regName).fst).toBool = false →
      isFatal (setup_kind_cluster sys regName) = true) ∧
    (∀ nodes, strContains sys.clusters0 CLUSTER_NAME = true →
      sys.nonInteractive = true →
      ((ensure_registry_connected sys regName).fst).toBool = false →
      sys.nodesQuery = some nodes →
      isFatal (setup_kind_cluster sys regName) = false) ∧
    (∀ nodes, strContains sys.clusters0 CLUSTER_NAME = false →
      sys.kindConfigExists = true → sys.createOk = true →
      strContains (sys.networkLs2 0) "kind" = true →
      ((ensure_registry_connected sys regName).fst).toBool = true →
      sys.nodesQuery = some nodes →
      sys.configmapApplyOk = true →
      isFatal (setup_kind_cluster sys regName) = false) := by
  refine ⟨?_, ?_, ?_⟩
  · intro h1 h2 h3 h4
    have hfresh : ∃ msg, fresh_after_create sys regName = .error msg := by
      unfold fresh_after_create
      cases hcond : (!(networkReadyPoll sys).fst && !strContains sys.clustersAfterCreate CLUSTER_NAME)
      · refine ⟨"failed to connect registry to kind network", ?_⟩
        simp [hcond, h4]
      · refine ⟨"kind network not found after cluster creation", ?_⟩
        simp [hcond]
    obtain ⟨msg, hfresh⟩ := hfresh
    unfold setup_kind_cluster create_path
    simp [h1, h2, h3, hfresh, isFatal]
  · intro nodes h1 h2 _ h4
    obtain ⟨res, t, hok⟩ := config_ok_exists sys regName nodes h4
    unfold setup_kind_cluster reuse_path
    simp [h1, h2, hok, isFatal]
  · intro nodes h1 h2 h3 hnet herc hn hcm
    have hready : (networkReadyPoll sys).fst = true :=
      pollUntil_found netWaitBound _ 0 (by decide) hnet
    obtain ⟨res, t, hok⟩ := config_ok_exists sys regName nodes hn
    unfold setup_kind_cluster create_path fresh_after_create
    simp [h1, h2, h3, hready, herc, hok, hcm, isFatal]

/-- C5 witness: binding failure aborting on fresh creation, binding
failure tolerated on reuse, and a fully degraded fresh run still
completing, each at a concrete environment. -/
theorem abort_policy_witness :
    isFatal (setup_kind_cluster sysFreshBindFail REGISTRY_NAME) = true ∧
    isFatal (setup_kind_cluster sysReuseBindFail REGISTRY_NAME) = false ∧
    isFatal (setup_kind_cluster sysFreshDegraded REGISTRY_NAME) = false :=
  ⟨(abort_policy sysFreshBindFail REGISTRY_NAME).1 (by decide) rfl rfl (by decide),
   (abort_policy sysReuseBindFail REGISTRY_NAME).2.1 [nodeCurrent]
     (by decide) rfl (by decide) rfl,
   (abort_policy sysFreshDegraded REGISTRY_NAME).2.2 [nodeDead]
     (by decide) rfl rfl (by decide) (by decide) rfl rfl⟩

/-- C7: when the connect call fails, `ensure_registry_connected`
re-inspects the network's membership; finding the registry there turns
the failure into success (`raceVerified`, returning true), and only
when the registry is absent from membership as well does it return
failure. -/
theorem connect_race_tolerated (sys : Sys) (regName : String)
    (hnet : (pollUntil netWaitBound (fun i => strContains (sys.networkLs i) "kind")).fst = true)
    (hrun : strContains sys.ercPs regName = true)
    (hmem : strContains sys.netInspect0 regName = false)
    (hconn : sys.connectOk = false) :
    (strContains sys.netInspectRecheck regName = true →
      ensure_registry_connected sys regName =
        (.raceVerified, [.netConnect "kind" regName]) ∧
      ConnectOutcome.raceVerified.toBool = true) ∧
    (strContains sys.netInspectRecheck regName = false →
      ensure_registry_connected sys regName =
        (.connectFailed, [.netConnect "kind" regName]) ∧
      ConnectOutcome.connectFailed.toBool = false) := by
  constructor <;> intro h <;> refine ⟨?_, rfl⟩ <;>
    · unfold ensure_registry_connected
      rw [hnet]
      simp [hrun, hmem, hconn, h]

/-- C7 witness: the race environment and the genuine-failure
environment, concretely. -/
theorem connect_race_tolerated_witness :
    (ensure_registry_connected sysRace REGISTRY_NAME =
      (.raceVerified, [.netConnect "kind" REGISTRY_NAME])) ∧
    (ensure_registry_connected sysConnFail REGISTRY_NAME =
      (.connectFailed, [.netConnect "kind" REGISTRY_NAME])) :=
  ⟨((connect_race_tolerated sysRace REGISTRY_NAME
      (by decide) (by decide) (by decide) rfl).1 (by decide)).1,
   ((connect_race_tolerated sysConnFail REGISTRY_NAME
      (by decide) (by decide) (by decide) rfl).2 (by decide)).1⟩

/-- C8: every poll loop respects its documented attempt bound
(post-create network visibility 10, CRD Established 30, containerd
liveness 15, registry IP 5), and exhausting each bound degrades instead
of failing: the post-create network wait lets the bootstrap proceed
(with `networkReady = false` recorded) when the cluster is listed, the
CRD installer returns `timedOut`, the node is still marked configured
with an unready runtime warning, and the IP retry reports no IP for
the fallback path. -/
theorem poll_bounds (sys : Sys) (regName endpoint : String) (nv : NodeView) :
    ((networkReadyPoll sys).snd ≤ netWaitBound ∧
     ((∀ i, i < netWaitBound → strContains (sys.networkLs2 i) "kind" = false) →
       networkReadyPoll sys = (false, netWaitBound))) ∧
    (∀ nodes, strContains sys.clusters0 CLUSTER_NAME = false →
      sys.kindConfigExists = true → sys.createOk = true →
      (∀ i, i < netWaitBound → strContains (sys.networkLs2 i) "kind" = false) →
      strContains sys.clustersAfterCreate CLUSTER_NAME = true →
      ((ensure_registry_connected sys regName).fst).toBool = true →
      sys.nodesQuery = some nodes →
      sys.configmapApplyOk = true →
      ∃ r t, setup_kind_cluster sys regName = .ok (.fresh r, t) ∧ r.networkReady = false) ∧
    ((pollUntil crdPollBound sys.crdEstablished).snd ≤ crdPollBound ∧
     (sys.crdFileExists = true → sys.crdApplyOk = true →
      (∀ i, i < crdPollBound → sys.crdEstablished i = false) →
      (install_secret_manager_crd sys).fst = .timedOut)) ∧
    ((pollUntil ctrPollBound nv.ctrOk).snd ≤ ctrPollBound ∧
     (nv.readHosts = none → nv.writeOk = true →
      (∀ i, i < ctrPollBound → nv.ctrOk i = false) →
      (configure_node endpoint nv).fst = .configured false)) ∧
    ((retry_registry_ip sys).snd ≤ ipMaxRetries ∧
     ((∀ i, i < ipMaxRetries → get_registry_ip (sys.regNet i) = none) →
       retry_registry_ip sys = (none, ipMaxRetries))) := by
  refine ⟨⟨pollUntil_snd_le _ _, ?_⟩, ?_, ⟨pollUntil_snd_le _ _, ?_⟩,
          ⟨pollUntil_snd_le _ _, ?_⟩, ⟨retry_ip_snd_le sys, retry_ip_exhausted sys⟩⟩
  · intro hexh
    exact pollUntil_exhausted netWaitBound _ hexh
  · intro nodes h1 h2 h3 hexh hcl herc hn hcm
    have hnr : networkReadyPoll sys = (false, netWaitBound) :=
      pollUntil_exhausted netWaitBound _ hexh
    have hnrf : (networkReadyPoll sys).fst = false := by rw [hnr]
    obtain ⟨res, t, hok⟩ := config_ok_exists sys regName nodes hn
    unfold setup_kind_cluster create_path fresh_after_create
    simp [h1, h2, h3, hnrf, hcl, herc, hok, hcm]
  · intro hfile happly hexh
    have hx := pollUntil_exhausted crdPollBound sys.crdEstablished hexh
    unfold install_secret_manager_crd
    simp [hfile, happly, hx]
  · intro hread hwrite hexh
    have hx := pollUntil_exhausted ctrPollBound nv.ctrOk hexh
    unfold configure_node
    rw [hread]
    simp [hwrite, hx]

/-- C8 witness: the everything-exhausted environment, concretely. -/
theorem poll_bounds_witness :
    networkReadyPoll sysC8 = (false, netWaitBound) ∧
    (∃ r t, setup_kind_cluster sysC8 REGISTRY_NAME = .ok (.fresh r, t) ∧
      r.networkReady = false) ∧
    (install_secret_manager_crd sysC8).fst = .timedOut ∧
    (configure_node ("https://" ++ REGISTRY_NAME ++ ":" ++ REGISTRY_CONTAINER_PORT)
      nodeDead).fst = .configured false ∧
    retry_registry_ip sysC8 = (none, ipMaxRetries) := by
  have h := poll_bounds sysC8 REGISTRY_NAME
    ("https://" ++ REGISTRY_NAME ++ ":" ++ REGISTRY_CONTAINER_PORT) nodeDead
  exact ⟨h.1.2 (fun i _ => rfl),
         h.2.1 [nodeDead] (by decide) rfl rfl (fun i _ => rfl) (by decide) (by decide) rfl rfl,
         h.2.2.1.2 rfl rfl (fun i _ => rfl),
         h.2.2.2.1.2 rfl rfl (fun i _ => rfl),
         h.2.2.2.2.2 (fun i _ => rfl)⟩

/-- C10: when the connect call succeeds but the bounded membership
verification never observes the registry, `ensure_registry_connected`
still returns success (`connectedUnverified`, a warning), never an
error. -/
theorem verify_timeout_still_success (sys : Sys) (regName : String)
    (hnet : (pollUntil netWaitBound (fun i => strContains (sys.networkLs i) "kind")).fst = true)
    (hrun : strContains sys.ercPs regName = true)
    (hmem : strContains sys.netInspect0 regName = false)
    (hconn : sys.connectOk = true)
    (hver : ∀ i, i < shortWaitBound → strContains (sys.netInspectVerify i) regName = false) :
    ensure_registry_connected sys regName =
      (.connectedUnverified, [.netConnect "kind" regName]) ∧
    ConnectOutcome.connectedUnverified.toBool = true := by
  have hv := pollUntil_exhausted shortWaitBound
    (fun i => strContains (sys.netInspectVerify i) regName) hver
  refine ⟨?_, rfl⟩
  unfold ensure_registry_connected
  rw [hnet]
  simp [hrun, hmem, hconn, hv]

/-- C10 witness: the never-verifying environment, concretely. -/
theorem verify_timeout_still_success_witness :
    ensure_registry_connected sysC10 REGISTRY_NAME =
      (.connectedUnverified, [.netConnect "kind" REGISTRY_NAME]) ∧
    ConnectOutcome.connectedUnverified.toBool = true :=
  verify_timeout_still_success sysC10 REGISTRY_NAME
    (by decide) (by decide) (by decide) rfl (fun i _ => rfl)

end SetupKind
